import Mathlib

/-!
Shallow embedding of the n8n You.com connector
(`nodes/YouDotCom/YouDotCom.node.ts` and `nodes/YouDotCom/YouDotCom.schemas.ts`):
the request builders for the search and contents operations, the zod option
and response validators, the validation-error rendering, and the per-item
batch loop with its continue-on-fail policy.

Numbers that the node handles (`count`, `offset`, `crawl_timeout`) are modelled
as `Int`; all inputs the claims touch are integral, so zod's `.int()` check
never fires in the model.  Issue message texts follow zod v3's default
messages; the claims only depend on the list structure, ordering, paths and
codes, never on the exact wording.
-/

/-- One zod validation issue: field path (list of segments), human-readable
message, machine-readable code — the shape read off `error.issues` in
`YouDotCom.node.ts` lines 393–398. -/
structure ZodIssue where
  path : List String
  message : String
  code : String
deriving DecidableEq, Repr

/-- A serialized issue as built at `YouDotCom.node.ts` lines 394–398:
the path dot-joined into a single string. -/
structure SerializedIssue where
  path : String
  message : String
  code : String
deriving DecidableEq, Repr

/-- `{ path: issue.path.join('.'), message: issue.message, code: issue.code }`
(`YouDotCom.node.ts` lines 394–398). -/
def serializeIssue (issue : ZodIssue) : SerializedIssue :=
  { path := String.intercalate "." issue.path
    message := issue.message
    code := issue.code }

/-- zod v3 default message for a failing inclusive `.min` check on a number. -/
def tooSmallMessage (lo : Int) : String :=
  "Number must be greater than or equal to " ++ toString lo

/-- zod v3 default message for a failing inclusive `.max` check on a number. -/
def tooBigMessage (hi : Int) : String :=
  "Number must be less than or equal to " ++ toString hi

/-- zod v3 default message for an invalid enum value. -/
def enumMessage (expected : List String) (received : String) : String :=
  "Invalid enum value. Expected "
    ++ String.intercalate " | " (expected.map (fun s => "'" ++ s ++ "'"))
    ++ ", received '" ++ received ++ "'"

/-- Issues produced by `z.number().int().min(lo).max(hi).optional()` on an
optional integer field: absent fields yield none; a present value outside the
inclusive range yields the corresponding issue (zod number checks are run in
sequence, collecting every failing check). -/
def numberRangeIssues (field : String) (lo hi : Int) : Option Int → List ZodIssue
  | none => []
  | some n =>
    (if n < lo then [⟨[field], tooSmallMessage lo, "too_small"⟩] else [])
      ++ (if hi < n then [⟨[field], tooBigMessage hi, "too_big"⟩] else [])

/-- Issues produced by `z.enum([...]).optional()` on an optional string field:
absent fields yield none; a present value outside the declared set yields one
`invalid_enum_value` issue (case-sensitive exact match). -/
def enumIssues (field : String) (allowed : List String) : Option String → List ZodIssue
  | none => []
  | some s =>
    if s ∈ allowed then []
    else [⟨[field], enumMessage allowed s, "invalid_enum_value"⟩]

/-- The `SearchOptions` record of `YouDotCom.schemas.ts` lines 9–18: every
field independently optional; `country` and `language` are unconstrained
strings, the rest carry ranges or enums checked by `validateSearchOptions`. -/
structure SearchOptions where
  count : Option Int := none
  country : Option String := none
  freshness : Option String := none
  language : Option String := none
  livecrawl : Option String := none
  livecrawl_formats : Option String := none
  offset : Option Int := none
  safesearch : Option String := none
deriving DecidableEq, Repr

/-- The complete issue list `SearchOptionsSchema.parse` collects over the
record, in the shape's declaration order (`count`, `country`, `freshness`,
`language`, `livecrawl`, `livecrawl_formats`, `offset`, `safesearch`).
`country` and `language` are `z.string().optional()` and contribute no issues
for string inputs. -/
def searchOptionsIssues (raw : SearchOptions) : List ZodIssue :=
  numberRangeIssues "count" 1 100 raw.count
    ++ enumIssues "freshness" ["day", "week", "month", "year"] raw.freshness
    ++ enumIssues "livecrawl" ["web", "news", "all"] raw.livecrawl
    ++ enumIssues "livecrawl_formats" ["html", "markdown"] raw.livecrawl_formats
    ++ numberRangeIssues "offset" 0 9 raw.offset
    ++ enumIssues "safesearch" ["off", "moderate", "strict"] raw.safesearch

/-- `SearchOptionsSchema.parse` (`YouDotCom.schemas.ts` lines 9–18): returns
the validated record when no check fails, otherwise throws a `ZodError`
carrying the full issue list — modelled as `Except`. -/
def validateSearchOptions (raw : SearchOptions) : Except (List ZodIssue) SearchOptions :=
  if searchOptionsIssues raw = [] then
    .ok { count := raw.count, country := raw.country, freshness := raw.freshness
          language := raw.language, livecrawl := raw.livecrawl
          livecrawl_formats := raw.livecrawl_formats, offset := raw.offset
          safesearch := raw.safesearch }
  else .error (searchOptionsIssues raw)

/-- The query-string object built by `#executeSearch`
(`YouDotCom.node.ts` lines 448–457): the required `query` plus one optional
slot per optional field. -/
structure SearchQs where
  query : String
  count : Option Int := none
  country : Option String := none
  freshness : Option String := none
  language : Option String := none
  livecrawl : Option String := none
  livecrawl_formats : Option String := none
  offset : Option Int := none
  safesearch : Option String := none
deriving DecidableEq, Repr

/-- JavaScript truthiness filter for a number used as `if (x) qs.k = x`:
`0` (and absent) is falsey, every other integer is truthy. -/
def truthyNum : Option Int → Option Int
  | none => none
  | some n => if n = 0 then none else some n

/-- JavaScript truthiness filter for a string used as `if (x) qs.k = x`:
the empty string (and absent) is falsey, every other string is truthy. -/
def truthyStr : Option String → Option String
  | none => none
  | some s => if s = "" then none else some s

/-- The query-string construction of `#executeSearch`
(`YouDotCom.node.ts` lines 448–457): every field but `offset` is gated by JS
truthiness (`if (options.x) qs.x = options.x`); `offset` alone is gated by
presence (`if (options.offset !== undefined)`). -/
def buildSearchQs (query : String) (options : SearchOptions) : SearchQs :=
  { query := query
    count := truthyNum options.count
    country := truthyStr options.country
    freshness := truthyStr options.freshness
    language := truthyStr options.language
    livecrawl := truthyStr options.livecrawl
    livecrawl_formats := truthyStr options.livecrawl_formats
    offset := options.offset
    safesearch := truthyStr options.safesearch }

/-- The `ContentsOptions` record of `YouDotCom.schemas.ts` lines 76–82:
optional `formats` (array of enum tokens) and optional `crawl_timeout`
(integer 1–60). -/
structure ContentsOptions where
  formats : Option (List String) := none
  crawl_timeout : Option Int := none
deriving DecidableEq, Repr

/-- Issues for `z.array(z.enum(['markdown','html','metadata'])).optional()`:
each offending element is reported under the path `formats.<index>`. -/
def formatsIssues : Option (List String) → List ZodIssue
  | none => []
  | some fs =>
    (fs.enum.map fun p =>
        enumIssues (toString p.1) ["markdown", "html", "metadata"] (some p.2)
          |>.map fun issue => { issue with path := "formats" :: issue.path }).flatten

/-- The complete issue list `ContentsOptionsSchema.parse` collects
(`YouDotCom.schemas.ts` lines 76–82), in shape order. -/
def contentsOptionsIssues (raw : ContentsOptions) : List ZodIssue :=
  formatsIssues raw.formats
    ++ numberRangeIssues "crawl_timeout" 1 60 raw.crawl_timeout

/-- `ContentsOptionsSchema.parse`: validated record or thrown `ZodError`. -/
def validateContentsOptions (raw : ContentsOptions) : Except (List ZodIssue) ContentsOptions :=
  if contentsOptionsIssues raw = [] then
    .ok { formats := raw.formats, crawl_timeout := raw.crawl_timeout }
  else .error (contentsOptionsIssues raw)

/-- JavaScript `String.prototype.split` with a one-character separator, on the
underlying character list: `"" → [""]`, `"," → ["",""]`. -/
def splitChars (sep : Char) : List Char → List (List Char)
  | [] => [[]]
  | c :: cs =>
    match splitChars sep cs with
    | [] => [[]]
    | grp :: rest => if c = sep then [] :: grp :: rest else (c :: grp) :: rest

/-- `urlsString.split(',')` as in `#executeContents`
(`YouDotCom.node.ts` line 491). -/
def jsSplit (sep : Char) (s : String) : List String :=
  (splitChars sep s.data).map fun cs => ⟨cs⟩

/-- The whitespace class stripped by JavaScript `String.prototype.trim`
(restricted to the ASCII whitespace characters; the inputs the node handles
contain only spaces). -/
def jsWhitespaceChar (c : Char) : Bool :=
  c = ' ' || c = '\t' || c = '\n' || c = '\r' || c = '\x0b' || c = '\x0c'

/-- Strip leading and trailing whitespace from a character list. -/
def trimChars (cs : List Char) : List Char :=
  ((cs.dropWhile jsWhitespaceChar).reverse.dropWhile jsWhitespaceChar).reverse

/-- `url.trim()` as in `#executeContents` (`YouDotCom.node.ts` line 492). -/
def jsTrim (s : String) : String :=
  ⟨trimChars s.data⟩

/-- The URL-list derivation of `#executeContents`
(`YouDotCom.node.ts` lines 490–493):
`urlsString.split(',').map(url => url.trim()).filter(url => url.length > 0)`. -/
def parseUrls (urlsString : String) : List String :=
  ((jsSplit ',' urlsString).map jsTrim).filter fun url => url.length > 0

/-- The POST body built by `#executeContents`
(`YouDotCom.node.ts` lines 500–507). -/
structure ContentsBody where
  urls : List String
  formats : Option (List String) := none
  crawl_timeout : Option Int := none
deriving DecidableEq, Repr

/-- Body construction of `#executeContents` (`YouDotCom.node.ts` lines
500–507): `formats` is added under `if (options.formats &&
options.formats.length > 0)`, `crawl_timeout` under JS truthiness
`if (options.crawl_timeout)`. -/
def buildContentsBody (options : ContentsOptions) (urls : List String) : ContentsBody :=
  { urls := urls
    formats :=
      match options.formats with
      | some fs => if fs.length > 0 then some fs else none
      | none => none
    crawl_timeout :=
      match options.crawl_timeout with
      | some t => if t = 0 then none else some t
      | none => none }

/-- A failure of the contents pipeline before any HTTP call: a thrown
`ZodError` from `ContentsOptionsSchema.parse`, or the thrown
`NodeOperationError` of `YouDotCom.node.ts` line 496. -/
inductive ContentsFailure where
  | zodError (issues : List ZodIssue)
  | operationError (message : String)
deriving DecidableEq, Repr

/-- The outbound request description produced by `#executeContents`
(`YouDotCom.node.ts` lines 509–517), up to the fixed headers. -/
structure ContentsRequest where
  method : String
  url : String
  body : ContentsBody
deriving DecidableEq, Repr

/-- `#executeContents` up to the HTTP call (`YouDotCom.node.ts` lines
482–517): validate the options, derive the URL list, reject an empty list
with `NodeOperationError 'At least one URL is required'`, otherwise build the
POST request.  Returning `.error` means the HTTP call is never issued. -/
def executeContents (urlsString : String) (rawOptions : ContentsOptions) :
    Except ContentsFailure ContentsRequest :=
  match validateContentsOptions rawOptions with
  | .error issues => .error (.zodError issues)
  | .ok options =>
    let urls := parseUrls urlsString
    if urls.length = 0 then
      .error (.operationError "At least one URL is required")
    else
      .ok { method := "POST", url := "https://ydc-index.io/v1/contents"
            body := buildContentsBody options urls }

/-- The validation-error message rendering of `YouDotCom.node.ts` line 393:
`` `Validation error:\n${error.issues.map((e, i) => `  ${i + 1}.
${e.path.join('.') || 'root'}: ${e.message}`).join('\n')}` ``. -/
def renderValidationError (issues : List ZodIssue) : String :=
  "Validation error:\n"
    ++ String.intercalate "\n"
      (issues.enum.map fun p =>
        "  " ++ toString (p.1 + 1) ++ ". "
          ++ (if String.intercalate "." p.2.path = "" then "root"
              else String.intercalate "." p.2.path)
          ++ ": " ++ p.2.message)

/-- Modelled from the spec (§7): the rendered message's lines after the
header — "numbered, one line per violation, each line naming the field path
(or root) and the human message" — written as direct recursion carrying the
line number, to be compared with the source rendering. -/
def specRenderLines : Nat → List ZodIssue → List String
  | _, [] => []
  | n, issue :: rest =>
    ("  " ++ toString n ++ ". "
        ++ (if String.intercalate "." issue.path = "" then "root"
            else String.intercalate "." issue.path)
        ++ ": " ++ issue.message)
      :: specRenderLines (n + 1) rest

/-- A JSON value (numbers restricted to integers; the payloads the claims
touch carry no fractional numbers). -/
inductive Json where
  | null : Json
  | bool (b : Bool) : Json
  | num (n : Int) : Json
  | str (s : String) : Json
  | arr (elems : List Json) : Json
  | obj (fields : List (String × Json)) : Json

/-- First-match key lookup in a JSON object's field list. -/
def jsonLookup (fields : List (String × Json)) (key : String) : Option Json :=
  match fields with
  | [] => none
  | (k, v) :: rest => if k = key then some v else jsonLookup rest key

/-- The abstracted outcome of running `#executeSearch` or `#executeContents`
on one item: the records the call would push on success, or the error it
would throw (`ZodError` from either schema, `NodeOperationError` for the
empty URL list, or a transport/API failure). -/
inductive ItemOutcome where
  | success (records : List Json)
  | zodFailure (issues : List ZodIssue)
  | operationFailure (message : String)
  | apiFailure (message : String)

/-- One input item of the batch: the `operation` node parameter read at
`YouDotCom.node.ts` line 375, and what the selected operation would do. -/
structure Item where
  operation : String
  outcome : ItemOutcome

/-- What the `try` block of the loop throws: a `ZodError` (handled at lines
392–413) or any other error (handled at lines 415–427, carrying only its
message). -/
inductive ThrownError where
  | zod (issues : List ZodIssue)
  | other (message : String)

/-- One record pushed onto `returnData`: a success payload with its
`pairedItem`, or one of the two error-record shapes of lines 400–408 and
416–423. -/
inductive OutputRecord where
  | data (payload : Json) (pairedItem : Nat)
  | zodError (message : String) (validationErrors : List SerializedIssue) (pairedItem : Nat)
  | plainError (message : String) (pairedItem : Nat)

/-- The `NodeApiError` thrown when `continueOnFail()` is false: lines 410–412
for `ZodError`s (message, serialized issues, item index), lines 425–427
otherwise (the error and the item index). -/
inductive BatchAbort where
  | zod (message : String) (issues : List SerializedIssue) (itemIndex : Nat)
  | other (message : String) (itemIndex : Nat)
deriving DecidableEq

/-- The body of the `try` block (`YouDotCom.node.ts` lines 375–389): dispatch
on the operation token.  `search` and `contents` run their operation; any
other token matches neither branch and the block completes having pushed
nothing. -/
def runOperation (item : Item) : Except ThrownError (List Json) :=
  if item.operation = "search" ∨ item.operation = "contents" then
    match item.outcome with
    | .success records => .ok records
    | .zodFailure issues => .error (.zod issues)
    | .operationFailure message => .error (.other message)
    | .apiFailure message => .error (.other message)
  else .ok []

/-- The error record pushed under `continueOnFail()` (`YouDotCom.node.ts`
lines 400–408 for `ZodError`s, 416–423 otherwise), paired with the item
index. -/
def errorRecord (e : ThrownError) (i : Nat) : OutputRecord :=
  match e with
  | .zod issues =>
    .zodError (renderValidationError issues) (issues.map serializeIssue) i
  | .other message => .plainError message i

/-- The `NodeApiError` thrown without `continueOnFail()` (`YouDotCom.node.ts`
lines 410–412 and 425–427), carrying the failing item's index. -/
def abortError (e : ThrownError) (i : Nat) : BatchAbort :=
  match e with
  | .zod issues =>
    .zod (renderValidationError issues) (issues.map serializeIssue) i
  | .other message => .other message i

/-- The item loop of `execute` (`YouDotCom.node.ts` lines 373–429) from item
index `i` on: success payloads are pushed with `pairedItem i`; a thrown error
becomes an error record and the loop continues when `continueOnFail()` holds,
and otherwise aborts the whole batch with a `NodeApiError`. -/
def executeFrom (continueOnFail : Bool) (i : Nat) : List Item → Except BatchAbort (List OutputRecord)
  | [] => .ok []
  | item :: rest =>
    match runOperation item with
    | .ok records =>
      (executeFrom continueOnFail (i + 1) rest).map
        fun out => records.map (fun r => OutputRecord.data r i) ++ out
    | .error e =>
      if continueOnFail then
        (executeFrom continueOnFail (i + 1) rest).map
          fun out => errorRecord e i :: out
      else .error (abortError e i)

/-- `execute` (`YouDotCom.node.ts` lines 369–432): run the loop over the
whole batch starting at index 0. -/
def executeBatch (continueOnFail : Bool) (items : List Item) :
    Except BatchAbort (List OutputRecord) :=
  executeFrom continueOnFail 0 items

/-- The records item `i` contributes to the output under continuation:
its success payloads, or exactly one error record correlated to `i`. -/
def itemOutput (i : Nat) (item : Item) : List OutputRecord :=
  match runOperation item with
  | .ok records => records.map fun r => OutputRecord.data r i
  | .error e => [errorRecord e i]

/-- The whole batch's output under continuation, item by item from index
`i`. -/
def batchOutputs (i : Nat) : List Item → List OutputRecord
  | [] => []
  | item :: rest => itemOutput i item ++ batchOutputs (i + 1) rest

/-- Prefix every issue's path with the given segments (zod nests issue paths
as it descends into object keys and array indices). -/
def prefixIssues (pre : List String) (issues : List ZodIssue) : List ZodIssue :=
  issues.map fun issue => { issue with path := pre ++ issue.path }

/-- The output fields of a zod `.passthrough()` object whose declared fields
all parse to themselves (plain strings/numbers): the declared keys that are
present, in shape order, followed by the unknown keys in input order, all
values unchanged. -/
def passthroughFields (fields : List (String × Json)) (shapeKeys : List String) :
    List (String × Json) :=
  (shapeKeys.filterMap fun k => (jsonLookup fields k).map fun v => (k, v))
    ++ fields.filter fun p => !(shapeKeys.contains p.1)

/-- Issues of a required `z.string()` field. -/
def requiredStringIssues (fields : List (String × Json)) (key : String) : List ZodIssue :=
  match jsonLookup fields key with
  | none => [⟨[key], "Required", "invalid_type"⟩]
  | some (.str _) => []
  | some _ => [⟨[key], "Expected string", "invalid_type"⟩]

/-- Issues of an optional `z.string()` field. -/
def optionalStringIssues (fields : List (String × Json)) (key : String) : List ZodIssue :=
  match jsonLookup fields key with
  | none => []
  | some (.str _) => []
  | some _ => [⟨[key], "Expected string", "invalid_type"⟩]

/-- Issues of an optional `z.number()` field. -/
def optionalNumberIssues (fields : List (String × Json)) (key : String) : List ZodIssue :=
  match jsonLookup fields key with
  | none => []
  | some (.num _) => []
  | some _ => [⟨[key], "Expected number", "invalid_type"⟩]

/-- Issues of an optional `z.array(z.string())` field (the `snippets` field
of `WebResultSchema`). -/
def optionalStringArrayIssues (fields : List (String × Json)) (key : String) : List ZodIssue :=
  match jsonLookup fields key with
  | none => []
  | some (.arr xs) =>
    (xs.enum.map fun p =>
        match p.2 with
        | .str _ => []
        | _ => [(⟨[key, toString p.1], "Expected string", "invalid_type"⟩ : ZodIssue)]).flatten
  | some _ => [⟨[key], "Expected array", "invalid_type"⟩]

/-- Issues of an optional `z.record(z.string(), z.unknown())` field (the
`metadata` field of the contents element schema): any object is accepted. -/
def optionalRecordIssues (fields : List (String × Json)) (key : String) : List ZodIssue :=
  match jsonLookup fields key with
  | none => []
  | some (.obj _) => []
  | some _ => [⟨[key], "Expected object", "invalid_type"⟩]

/-- `WebResultSchema` (`YouDotCom.schemas.ts` lines 29–37): required `url`,
`title`, `description` strings, optional `snippets` string array and
`page_age` string, `.passthrough()`. -/
def parseWebResult (j : Json) : Except (List ZodIssue) Json :=
  match j with
  | .obj fields =>
    let issues := requiredStringIssues fields "url"
      ++ requiredStringIssues fields "title"
      ++ requiredStringIssues fields "description"
      ++ optionalStringArrayIssues fields "snippets"
      ++ optionalStringIssues fields "page_age"
    if issues = [] then
      .ok (.obj (passthroughFields fields ["url", "title", "description", "snippets", "page_age"]))
    else .error issues
  | _ => .error [⟨[], "Expected object", "invalid_type"⟩]

/-- `NewsResultSchema` (`YouDotCom.schemas.ts` lines 39–46): required `url`,
`title`, `description` strings, optional `page_age` string,
`.passthrough()`. -/
def parseNewsResult (j : Json) : Except (List ZodIssue) Json :=
  match j with
  | .obj fields =>
    let issues := requiredStringIssues fields "url"
      ++ requiredStringIssues fields "title"
      ++ requiredStringIssues fields "description"
      ++ optionalStringIssues fields "page_age"
    if issues = [] then
      .ok (.obj (passthroughFields fields ["url", "title", "description", "page_age"]))
    else .error issues
  | _ => .error [⟨[], "Expected object", "invalid_type"⟩]

/-- `MetadataSchema` (`YouDotCom.schemas.ts` lines 48–54): optional
`search_uuid`, `query` strings and `latency` number, `.passthrough()`. -/
def parseMetadata (j : Json) : Except (List ZodIssue) Json :=
  match j with
  | .obj fields =>
    let issues := optionalStringIssues fields "search_uuid"
      ++ optionalStringIssues fields "query"
      ++ optionalNumberIssues fields "latency"
    if issues = [] then
      .ok (.obj (passthroughFields fields ["search_uuid", "query", "latency"]))
    else .error issues
  | _ => .error [⟨[], "Expected object", "invalid_type"⟩]

/-- Parse every element of a JSON array with the given element parser,
collecting the issues of every failing element (paths prefixed with the
element index) and the parsed values of the succeeding ones, in order. -/
def parseArrayElems (p : Json → Except (List ZodIssue) Json) :
    Nat → List Json → List ZodIssue × List Json
  | _, [] => ([], [])
  | i, x :: rest =>
    let tail := parseArrayElems p (i + 1) rest
    match p x with
    | .ok v => (tail.1, v :: tail.2)
    | .error es => (prefixIssues [toString i] es ++ tail.1, tail.2)

/-- Parse an optional array-valued field (`web` / `news` inside `results`)
whose elements are parsed by `p`; issues are reported under
`key.<index>....`. -/
def parseOptionalResultArray (p : Json → Except (List ZodIssue) Json)
    (fields : List (String × Json)) (key : String) : List ZodIssue × Option Json :=
  match jsonLookup fields key with
  | none => ([], none)
  | some (.arr xs) =>
    let r := parseArrayElems p 0 xs
    (prefixIssues [key] r.1, if r.1 = [] then some (.arr r.2) else none)
  | some _ => ([⟨[key], "Expected array", "invalid_type"⟩], none)

/-- The inner `results` object of `SearchResponseSchema`
(`YouDotCom.schemas.ts` lines 58–63): optional `web` and `news` result
arrays, `.passthrough()`. -/
def parseResults (j : Json) : Except (List ZodIssue) Json :=
  match j with
  | .obj fields =>
    let w := parseOptionalResultArray parseWebResult fields "web"
    let n := parseOptionalResultArray parseNewsResult fields "news"
    if w.1 ++ n.1 = [] then
      .ok (.obj ((match w.2 with | some v => [("web", v)] | none => [])
        ++ (match n.2 with | some v => [("news", v)] | none => [])
        ++ fields.filter fun p => !(p.1 == "web" || p.1 == "news")))
    else .error (w.1 ++ n.1)
  | _ => .error [⟨[], "Expected object", "invalid_type"⟩]

/-- `SearchResponseSchema.parse` (`YouDotCom.schemas.ts` lines 56–66):
required `results` object, optional `metadata` object, `.passthrough()` at
every level; issues of both declared keys are collected in one pass. -/
def parseSearchResponse (j : Json) : Except (List ZodIssue) Json :=
  match j with
  | .obj fields =>
    let r :=
      match jsonLookup fields "results" with
      | none => (([⟨["results"], "Required", "invalid_type"⟩] : List ZodIssue), none)
      | some v =>
        match parseResults v with
        | .ok rv => ([], some rv)
        | .error es => (prefixIssues ["results"] es, none)
    let m :=
      match jsonLookup fields "metadata" with
      | none => (([] : List ZodIssue), none)
      | some v =>
        match parseMetadata v with
        | .ok mv => ([], some mv)
        | .error es => (prefixIssues ["metadata"] es, none)
    if r.1 ++ m.1 = [] then
      .ok (.obj ((match r.2 with | some v => [("results", v)] | none => [])
        ++ (match m.2 with | some v => [("metadata", v)] | none => [])
        ++ fields.filter fun p => !(p.1 == "results" || p.1 == "metadata")))
    else .error (r.1 ++ m.1)
  | _ => .error [⟨[], "Expected object", "invalid_type"⟩]

/-- Locate the first `://` in a character list and return the characters
before it and after it. -/
def splitAtScheme : List Char → Option (List Char × List Char)
  | [] => none
  | ':' :: '/' :: '/' :: rest => some ([], rest)
  | c :: cs => (splitAtScheme cs).map fun p => (c :: p.1, p.2)

/-- Modelled from the spec (§3): a `ContentsResult`'s `url` "must be a
syntactically valid URL" — the check itself is `z.string().url()`, zod
library code outside this repository.  Modelled as a nonempty scheme,
`://`, and a nonempty remainder. -/
def urlSyntaxOk (s : String) : Bool :=
  match splitAtScheme s.data with
  | some p => !p.1.isEmpty && !p.2.isEmpty
  | none => false

/-- One element of `ContentsResponseSchema` (`YouDotCom.schemas.ts` lines
94–101): required `url` (valid URL string), optional `markdown`, `html`
strings and `metadata` record, `.passthrough()`. -/
def parseContentsItem (j : Json) : Except (List ZodIssue) Json :=
  match j with
  | .obj fields =>
    let urlIssues :=
      match jsonLookup fields "url" with
      | none => [(⟨["url"], "Required", "invalid_type"⟩ : ZodIssue)]
      | some (.str s) => if urlSyntaxOk s then [] else [⟨["url"], "Invalid url", "invalid_string"⟩]
      | some _ => [⟨["url"], "Expected string", "invalid_type"⟩]
    let issues := urlIssues
      ++ optionalStringIssues fields "markdown"
      ++ optionalStringIssues fields "html"
      ++ optionalRecordIssues fields "metadata"
    if issues = [] then
      .ok (.obj (passthroughFields fields ["url", "markdown", "html", "metadata"]))
    else .error issues
  | _ => .error [⟨[], "Expected object", "invalid_type"⟩]

/-- `ContentsResponseSchema.parse` (`YouDotCom.schemas.ts` lines 93–102):
an array of contents elements, every element's issues collected. -/
def parseContentsResponse (j : Json) : Except (List ZodIssue) Json :=
  match j with
  | .arr xs =>
    let r := parseArrayElems parseContentsItem 0 xs
    if r.1 = [] then .ok (.arr r.2) else .error r.1
  | _ => .error [⟨[], "Expected array", "invalid_type"⟩]

/-! Helper lemmas shared by the claim theorems. -/

lemma numberRangeIssues_nil {field : String} {lo hi n : Int}
    (h : numberRangeIssues field lo hi (some n) = []) : lo ≤ n ∧ n ≤ hi := by
  unfold numberRangeIssues at h
  by_cases h1 : n < lo
  · simp [h1] at h
  · by_cases h2 : hi < n
    · simp [h1, h2] at h
    · omega

lemma enumIssues_nil {field s : String} {allowed : List String}
    (h : enumIssues field allowed (some s) = []) : s ∈ allowed := by
  unfold enumIssues at h
  by_cases hm : s ∈ allowed
  · exact hm
  · simp [hm] at h

lemma ne_empty_of_mem {s : String} {l : List String} (hs : s ∈ l) (hnotin : "" ∉ l) :
    s ≠ "" :=
  fun h => hnotin (h ▸ hs)

lemma truthyNum_of_ne {n : Int} (h : n ≠ 0) : truthyNum (some n) = some n := by
  simp [truthyNum, h]

lemma truthyStr_of_ne {s : String} (h : s ≠ "") : truthyStr (some s) = some s := by
  simp [truthyStr, h]

lemma validateSearchOptions_ok {raw options : SearchOptions}
    (h : validateSearchOptions raw = .ok options) :
    options = raw ∧ searchOptionsIssues raw = [] := by
  unfold validateSearchOptions at h
  split at h
  · next hnil =>
    injection h with h'
    exact ⟨h'.symm.trans rfl, hnil⟩
  · cases h

lemma searchOptionsIssues_nil_parts {raw : SearchOptions}
    (h : searchOptionsIssues raw = []) :
    numberRangeIssues "count" 1 100 raw.count = []
      ∧ enumIssues "freshness" ["day", "week", "month", "year"] raw.freshness = []
      ∧ enumIssues "livecrawl" ["web", "news", "all"] raw.livecrawl = []
      ∧ enumIssues "livecrawl_formats" ["html", "markdown"] raw.livecrawl_formats = []
      ∧ numberRangeIssues "offset" 0 9 raw.offset = []
      ∧ enumIssues "safesearch" ["off", "moderate", "strict"] raw.safesearch = [] := by
  unfold searchOptionsIssues at h
  simp only [List.append_eq_nil] at h
  tauto

lemma validateContentsOptions_ok {raw options : ContentsOptions}
    (h : validateContentsOptions raw = .ok options) :
    options = raw ∧ contentsOptionsIssues raw = [] := by
  unfold validateContentsOptions at h
  split at h
  · next hnil =>
    injection h with h'
    exact ⟨h'.symm.trans rfl, hnil⟩
  · cases h

lemma executeFrom_continue (items : List Item) :
    ∀ k : Nat, executeFrom true k items = .ok (batchOutputs k items) := by
  induction items with
  | nil => intro k; rfl
  | cons item rest ih =>
    intro k
    simp only [executeFrom, batchOutputs, itemOutput]
    cases hop : runOperation item with
    | ok records => simp [hop, ih (k + 1), Except.map]
    | error e => simp [hop, ih (k + 1), Except.map]

lemma executeFrom_abort (e : ThrownError) (pre : List Item) :
    ∀ (k : Nat) (item : Item) (post : List Item),
      (∀ x ∈ pre, ∃ records, runOperation x = .ok records)
      → runOperation item = .error e
      → executeFrom false k (pre ++ item :: post) = .error (abortError e (k + pre.length)) := by
  induction pre with
  | nil =>
    intro k item post _ hfail
    simp [executeFrom, hfail]
  | cons x xs ih =>
    intro k item post hpre hfail
    obtain ⟨records, hx⟩ := hpre x (by simp)
    have hrec := ih (k + 1) item post (fun y hy => hpre y (by simp [hy])) hfail
    have hlen : k + (x :: xs).length = k + 1 + xs.length := by
      simp [List.length_cons]; omega
    rw [hlen]
    simp [executeFrom, hx, hrec, Except.map]

lemma string_length_pos_iff (u : String) : 0 < u.length ↔ u ≠ "" := by
  cases u with
  | mk data =>
    simp [String.length, String.ext_iff, List.length_pos]

/-- Modelled from the spec (§4.1): "split on comma, trim surrounding
whitespace from each piece, discard empty pieces after trimming" — the
discard criterion stated as emptiness rather than the source's
`length > 0`. -/
def specParseUrls (s : String) : List String :=
  ((jsSplit ',' s).map jsTrim).filter fun u => u ≠ ""

/-- C4: for every input URL string of the contents operation, the URL list is
derived by splitting on commas, trimming each piece, and discarding pieces
that are empty after trimming; in particular
`"https://a.com, https://b.com ,,  "` yields exactly
`["https://a.com", "https://b.com"]`. -/
theorem c4_url_parsing :
    (∀ s : String, parseUrls s = specParseUrls s)
      ∧ parseUrls "https://a.com, https://b.com ,,  "
          = ["https://a.com", "https://b.com"] := by
  constructor
  · intro s
    unfold parseUrls specParseUrls
    apply List.filter_congr
    intro u _
    simp only [decide_eq_decide]
    exact string_length_pos_iff u
  · rfl

/-- C5: whenever the contents URL string leaves zero URLs after splitting,
trimming and dropping empties (as `""` and `","` both do), `#executeContents`
fails with the `NodeOperationError` "At least one URL is required" — an
operation error, distinct from every validation-schema failure — and no
request is built, so no HTTP call is made. -/
theorem c5_empty_urls_operation_error :
    (∀ (s : String) (raw options : ContentsOptions),
        validateContentsOptions raw = .ok options
        → parseUrls s = []
        → executeContents s raw = .error (.operationError "At least one URL is required"))
      ∧ parseUrls "" = []
      ∧ parseUrls "," = []
      ∧ ∀ issues : List ZodIssue,
          ContentsFailure.operationError "At least one URL is required" ≠ .zodError issues := by
  refine ⟨?_, rfl, rfl, by intro issues h; cases h⟩
  intro s raw options hv hu
  simp [executeContents, hv, hu]

/-- Witness for C5 at the concrete input `""` with default options. -/
theorem c5_empty_urls_operation_error_witness :
    executeContents "" {} = .error (.operationError "At least one URL is required") :=
  c5_empty_urls_operation_error.1 "" {} {} rfl rfl

/-- C10: the options validator accepts any string for `country` and
`language`; a record setting only those two fields to arbitrary non-empty
strings validates successfully and both strings are sent verbatim in the
query parameters. -/
theorem c10_country_language_freeform (query c l : String) (hc : c ≠ "") (hl : l ≠ "") :
    validateSearchOptions { country := some c, language := some l }
        = .ok { country := some c, language := some l }
      ∧ (buildSearchQs query { country := some c, language := some l }).country = some c
      ∧ (buildSearchQs query { country := some c, language := some l }).language = some l := by
  refine ⟨rfl, ?_, ?_⟩
  · show truthyStr (some c) = some c
    exact truthyStr_of_ne hc
  · show truthyStr (some l) = some l
    exact truthyStr_of_ne hl

/-- Witness for C10 at strings far outside the configuration form's
country/language catalogs. -/
theorem c10_country_language_freeform_witness :
    validateSearchOptions { country := some "Atlantis", language := some "tlh" }
        = .ok { country := some "Atlantis", language := some "tlh" }
      ∧ (buildSearchQs "quantum computing"
          { country := some "Atlantis", language := some "tlh" }).country = some "Atlantis"
      ∧ (buildSearchQs "quantum computing"
          { country := some "Atlantis", language := some "tlh" }).language = some "tlh" :=
  c10_country_language_freeform "quantum computing" "Atlantis" "tlh" (by decide) (by decide)

/-- C1 counterexample: the record whose only set field is `country := ""` —
valid per `SearchOptionsSchema` (`country` is an unconstrained optional
string), yet `if (options.country)` drops the falsey empty string, so the
present field produces no query key. -/
theorem c1_present_empty_country_dropped :
    validateSearchOptions { country := some "" } = .ok { country := some "" }
      ∧ ({ country := some "" } : SearchOptions).country = some ""
      ∧ (buildSearchQs "anything" { country := some "" }).country = none
      ∧ (buildSearchQs "anything" { country := some "" }).country
          ≠ ({ country := some "" } : SearchOptions).country :=
  ⟨rfl, rfl, rfl, by decide⟩

/-- C1 (amended): for every valid `SearchOptions` record, the query string
carries the required query plus: the `count`, `freshness`, `livecrawl`,
`livecrawl_formats`, `offset` and `safesearch` keys exactly when present,
each value unchanged (`offset = 0` included, by the `!== undefined` gate);
`country` and `language` keys when present and non-empty, value unchanged —
a present empty-string `country` or `language` produces no key. -/
theorem c1_search_query_params (query : String) (raw options : SearchOptions)
    (h : validateSearchOptions raw = .ok options) :
    (buildSearchQs query options).query = query
      ∧ (buildSearchQs query options).count = options.count
      ∧ (buildSearchQs query options).freshness = options.freshness
      ∧ (buildSearchQs query options).livecrawl = options.livecrawl
      ∧ (buildSearchQs query options).livecrawl_formats = options.livecrawl_formats
      ∧ (buildSearchQs query options).offset = options.offset
      ∧ (buildSearchQs query options).safesearch = options.safesearch
      ∧ ((buildSearchQs query options).country = none
          ↔ options.country = none ∨ options.country = some "")
      ∧ ((buildSearchQs query options).country ≠ none
          → (buildSearchQs query options).country = options.country)
      ∧ ((buildSearchQs query options).language = none
          ↔ options.language = none ∨ options.language = some "")
      ∧ ((buildSearchQs query options).language ≠ none
          → (buildSearchQs query options).language = options.language) := by
  obtain ⟨rfl, hnil⟩ := validateSearchOptions_ok h
  obtain ⟨hcount, hfresh, hlive, hliveF, hoffset, hsafe⟩ := searchOptionsIssues_nil_parts hnil
  refine ⟨rfl, ?_, ?_, ?_, ?_, rfl, ?_, ?_, ?_, ?_, ?_⟩
  · show truthyNum options.count = options.count
    cases hc : options.count with
    | none => rfl
    | some n =>
      have := numberRangeIssues_nil (hc ▸ hcount)
      exact truthyNum_of_ne (by omega)
  · show truthyStr options.freshness = options.freshness
    cases hc : options.freshness with
    | none => rfl
    | some s =>
      exact truthyStr_of_ne (ne_empty_of_mem (enumIssues_nil (hc ▸ hfresh)) (by decide))
  · show truthyStr options.livecrawl = options.livecrawl
    cases hc : options.livecrawl with
    | none => rfl
    | some s =>
      exact truthyStr_of_ne (ne_empty_of_mem (enumIssues_nil (hc ▸ hlive)) (by decide))
  · show truthyStr options.livecrawl_formats = options.livecrawl_formats
    cases hc : options.livecrawl_formats with
    | none => rfl
    | some s =>
      exact truthyStr_of_ne (ne_empty_of_mem (enumIssues_nil (hc ▸ hliveF)) (by decide))
  · show truthyStr options.safesearch = options.safesearch
    cases hc : options.safesearch with
    | none => rfl
    | some s =>
      exact truthyStr_of_ne (ne_empty_of_mem (enumIssues_nil (hc ▸ hsafe)) (by decide))
  · show truthyStr options.country = none ↔ _
    cases options.country with
    | none => simp [truthyStr]
    | some s =>
      by_cases hs : s = "" <;> simp [truthyStr, hs]
  · show truthyStr options.country ≠ none → truthyStr options.country = options.country
    cases options.country with
    | none => intro; rfl
    | some s =>
      by_cases hs : s = "" <;> simp [truthyStr, hs]
  · show truthyStr options.language = none ↔ _
    cases options.language with
    | none => simp [truthyStr]
    | some s =>
      by_cases hs : s = "" <;> simp [truthyStr, hs]
  · show truthyStr options.language ≠ none → truthyStr options.language = options.language
    cases options.language with
    | none => intro; rfl
    | some s =>
      by_cases hs : s = "" <;> simp [truthyStr, hs]

/-- A fully-populated valid record with `offset = 0`, used to witness C1. -/
def c1WitnessRecord : SearchOptions :=
  { count := some 5, country := some "US", freshness := some "week"
    language := some "EN", livecrawl := some "web"
    livecrawl_formats := some "markdown", offset := some 0
    safesearch := some "strict" }

/-- Witness for C1 (amended) at `c1WitnessRecord`. -/
theorem c1_search_query_params_witness :
    (buildSearchQs "AI news" c1WitnessRecord).query = "AI news"
      ∧ (buildSearchQs "AI news" c1WitnessRecord).count = c1WitnessRecord.count
      ∧ (buildSearchQs "AI news" c1WitnessRecord).freshness = c1WitnessRecord.freshness
      ∧ (buildSearchQs "AI news" c1WitnessRecord).livecrawl = c1WitnessRecord.livecrawl
      ∧ (buildSearchQs "AI news" c1WitnessRecord).livecrawl_formats
          = c1WitnessRecord.livecrawl_formats
      ∧ (buildSearchQs "AI news" c1WitnessRecord).offset = c1WitnessRecord.offset
      ∧ (buildSearchQs "AI news" c1WitnessRecord).safesearch = c1WitnessRecord.safesearch
      ∧ ((buildSearchQs "AI news" c1WitnessRecord).country = none
          ↔ c1WitnessRecord.country = none ∨ c1WitnessRecord.country = some "")
      ∧ ((buildSearchQs "AI news" c1WitnessRecord).country ≠ none
          → (buildSearchQs "AI news" c1WitnessRecord).country = c1WitnessRecord.country)
      ∧ ((buildSearchQs "AI news" c1WitnessRecord).language = none
          ↔ c1WitnessRecord.language = none ∨ c1WitnessRecord.language = some "")
      ∧ ((buildSearchQs "AI news" c1WitnessRecord).language ≠ none
          → (buildSearchQs "AI news" c1WitnessRecord).language = c1WitnessRecord.language) :=
  c1_search_query_params "AI news" c1WitnessRecord c1WitnessRecord rfl

/-- C2: under the continuation flag the batch output is the concatenation of
per-item outputs in which every failing item's slot is exactly one error
record correlated to its index (for validation failures carrying the
dot-joined serialized violation list); without the flag, the first failing
item aborts the whole batch with a `NodeApiError` carrying that item's index,
and no result is emitted for any item. -/
theorem c2_batch_error_policy :
    (∀ items : List Item, executeBatch true items = .ok (batchOutputs 0 items))
      ∧ (∀ (i : Nat) (item : Item) (e : ThrownError),
          runOperation item = .error e → itemOutput i item = [errorRecord e i])
      ∧ (∀ (issues : List ZodIssue) (i : Nat),
          errorRecord (.zod issues) i
            = .zodError (renderValidationError issues) (issues.map serializeIssue) i)
      ∧ ∀ (pre post : List Item) (item : Item) (e : ThrownError),
          (∀ x ∈ pre, ∃ records, runOperation x = .ok records)
          → runOperation item = .error e
          → executeBatch false (pre ++ item :: post) = .error (abortError e pre.length) := by
  refine ⟨fun items => executeFrom_continue items 0, ?_, fun issues i => rfl, ?_⟩
  · intro i item e h
    simp [itemOutput, h]
  · intro pre post item e hpre hfail
    have h := executeFrom_abort e pre 0 item post hpre hfail
    simpa using h

/-- A successfully searching first item for the C2 witness batch. -/
def c2FirstItem : Item := ⟨"search", .success [Json.str "first result"]⟩

/-- A second item whose options validation fails, for the C2 witness batch. -/
def c2FailingItem : Item :=
  ⟨"search", .zodFailure [⟨["count"], tooSmallMessage 1, "too_small"⟩]⟩

/-- A successful third item for the C2 witness batch. -/
def c2ThirdItem : Item := ⟨"contents", .success [Json.str "third result"]⟩

/-- Witness for C2: with continuation disabled, the three-item batch whose
second item fails validation aborts at index 1. -/
theorem c2_batch_error_policy_witness :
    executeBatch false [c2FirstItem, c2FailingItem, c2ThirdItem]
      = .error (abortError (.zod [⟨["count"], tooSmallMessage 1, "too_small"⟩]) 1) := by
  have h := c2_batch_error_policy.2.2.2 [c2FirstItem] [c2ThirdItem] c2FailingItem
      (.zod [⟨["count"], tooSmallMessage 1, "too_small"⟩])
      (by
        intro x hx
        simp only [List.mem_singleton] at hx
        subst hx
        exact ⟨[Json.str "first result"], rfl⟩)
      rfl
  simpa using h

/-- An item whose operation token is neither of the two known ones. -/
def c3UnknownItem : Item := ⟨"delete", .apiFailure "boom"⟩

/-- C3 counterexample: an item with the unknown operation `"delete"` matches
neither branch of the dispatch, so the batch completes successfully with an
empty output — no error record and no abort, under either continuation
setting — contrary to the claimed per-item configuration error. -/
theorem c3_unknown_operation_counterexample :
    executeBatch true [c3UnknownItem] = .ok []
      ∧ executeBatch false [c3UnknownItem] = .ok [] :=
  ⟨rfl, rfl⟩

/-- C3 (amended): an item whose operation is neither `search` nor `contents`
is silently skipped — the `try` block runs no operation and pushes nothing,
so the loop continues with the next item and the item contributes neither a
result nor an error, under either continuation setting. -/
theorem c3_unknown_operation_silent_skip (cof : Bool) (i : Nat) (item : Item)
    (rest : List Item) (h1 : item.operation ≠ "search") (h2 : item.operation ≠ "contents") :
    runOperation item = .ok []
      ∧ executeFrom cof i (item :: rest) = executeFrom cof (i + 1) rest := by
  have hop : runOperation item = .ok [] := by
    unfold runOperation
    rw [if_neg]
    rintro (h | h)
    · exact h1 h
    · exact h2 h
  refine ⟨hop, ?_⟩
  cases hrest : executeFrom cof (i + 1) rest <;>
    simp [executeFrom, hop, hrest, Except.map]

/-- A well-formed trailing item for the C3 witness. -/
def c3TailOkItem : Item := ⟨"search", .success [Json.str "tail result"]⟩

/-- Witness for C3 (amended) at the concrete unknown-operation item. -/
theorem c3_unknown_operation_silent_skip_witness :
    runOperation c3UnknownItem = .ok []
      ∧ executeFrom false 0 (c3UnknownItem :: [c3TailOkItem])
          = executeFrom false 1 [c3TailOkItem] :=
  c3_unknown_operation_silent_skip false 0 c3UnknownItem [c3TailOkItem]
    (by decide) (by decide)

/-- C6: a record violating the schema always yields a non-empty violation
list, and a record with two independent violations (`count = 0` and
`freshness = "century"`) reports both in one pass, in field order. -/
theorem c6_validator_full_violation_list :
    (∀ (raw : SearchOptions) (issues : List ZodIssue),
        validateSearchOptions raw = .error issues → issues ≠ [])
      ∧ validateSearchOptions { count := some 0, freshness := some "century" }
          = .error
              [⟨["count"], tooSmallMessage 1, "too_small"⟩,
               ⟨["freshness"], enumMessage ["day", "week", "month", "year"] "century",
                 "invalid_enum_value"⟩] := by
  constructor
  · intro raw issues h
    unfold validateSearchOptions at h
    split at h
    · cases h
    · next hne =>
      injection h with h'
      exact h' ▸ hne
  · rfl

/-- Witness for C6: the two-violation list of the concrete malformed record
is non-empty. -/
theorem c6_validator_full_violation_list_witness :
    ([⟨["count"], tooSmallMessage 1, "too_small"⟩,
      ⟨["freshness"], enumMessage ["day", "week", "month", "year"] "century",
        "invalid_enum_value"⟩] : List ZodIssue) ≠ [] :=
  c6_validator_full_violation_list.1 { count := some 0, freshness := some "century" } _ rfl

lemma enumFrom_render_eq (issues : List ZodIssue) :
    ∀ k : Nat,
      (List.enumFrom k issues).map
          (fun p =>
            "  " ++ toString (p.1 + 1) ++ ". "
              ++ (if String.intercalate "." p.2.path = "" then "root"
                  else String.intercalate "." p.2.path)
              ++ ": " ++ p.2.message)
        = specRenderLines (k + 1) issues := by
  induction issues with
  | nil => intro k; rfl
  | cons issue rest ih =>
    intro k
    simp only [List.enumFrom, List.map_cons, specRenderLines, ih (k + 1)]

/-- C7: every rendered validation error consists of the header followed by
numbered lines, one per violation in order, each line naming the dot-joined
field path (or `root` when that is empty) and the human message. -/
theorem c7_validation_message_rendering (issues : List ZodIssue) :
    renderValidationError issues
      = "Validation error:\n" ++ String.intercalate "\n" (specRenderLines 1 issues) := by
  unfold renderValidationError
  rw [show issues.enum = List.enumFrom 0 issues from rfl, enumFrom_render_eq issues 0]

/-- Field lookup on a JSON object value. -/
def jsonField (j : Json) (key : String) : Option Json :=
  match j with
  | .obj fields => jsonLookup fields key
  | _ => none

/-- The element list of a JSON array value. -/
def jsonElems : Json → List Json
  | .arr elems => elems
  | _ => []

/-- A search response with only its required field (`results`, which may be
empty) plus one unknown extra field. -/
def searchMinimalPayload : Json :=
  .obj [("results", .obj []), ("extra", .str "bonus")]

/-- A contents response whose one element has only its required field
(a valid `url`) plus one unknown extra field. -/
def contentsMinimalPayload : Json :=
  .arr [.obj [("url", .str "https://a.com"), ("extra", .str "bonus")]]

/-- C8: every response payload carrying exactly the minimally required
fields plus one unknown extra field — any key outside the respective
schema's declared keys, any value — validates successfully, and the extra
field survives unchanged in the validated output (open-schema passthrough),
for both the search and the contents response shapes. -/
theorem c8_passthrough_roundtrip (kS kC u : String) (vS vC : Json)
    (hkS1 : kS ≠ "results") (hkS2 : kS ≠ "metadata")
    (hkC1 : kC ≠ "url") (hkC2 : kC ≠ "markdown") (hkC3 : kC ≠ "html")
    (hkC4 : kC ≠ "metadata") (hu : urlSyntaxOk u = true) :
    parseSearchResponse (.obj [("results", .obj []), (kS, vS)])
        = .ok (.obj [("results", .obj []), (kS, vS)])
      ∧ jsonField (.obj [("results", .obj []), (kS, vS)]) kS = some vS
      ∧ parseContentsResponse (.arr [.obj [("url", .str u), (kC, vC)]])
          = .ok (.arr [.obj [("url", .str u), (kC, vC)]])
      ∧ (jsonElems (.arr [.obj [("url", .str u), (kC, vC)]])).map
            (fun e => jsonField e kC)
          = [some vC] := by
  have hbS1 : (kS == "results") = false := beq_eq_false_iff_ne.mpr hkS1
  have hbS2 : (kS == "metadata") = false := beq_eq_false_iff_ne.mpr hkS2
  have hbC1 : ("url" == kC) = false := beq_eq_false_iff_ne.mpr (Ne.symm hkC1)
  have hbC2 : ("markdown" == kC) = false := beq_eq_false_iff_ne.mpr (Ne.symm hkC2)
  have hbC3 : ("html" == kC) = false := beq_eq_false_iff_ne.mpr (Ne.symm hkC3)
  have hbC4 : ("metadata" == kC) = false := beq_eq_false_iff_ne.mpr (Ne.symm hkC4)
  refine ⟨?_, ?_, ?_, ?_⟩
  · simp [parseSearchResponse, parseResults, parseOptionalResultArray, jsonLookup,
      hkS1, hkS2, hbS1, hbS2]
  · simp [jsonField, jsonLookup, Ne.symm hkS1]
  · simp [parseContentsResponse, parseArrayElems, parseContentsItem, jsonLookup,
      optionalStringIssues, optionalRecordIssues, passthroughFields, List.contains,
      hu, hkC1, hkC2, hkC3, hkC4, hbC1, hbC2, hbC3, hbC4]
  · simp [jsonElems, jsonField, jsonLookup, Ne.symm hkC1]

/-- Witness for C8 at the concrete minimal-plus-extra payloads. -/
theorem c8_passthrough_roundtrip_witness :
    parseSearchResponse searchMinimalPayload = .ok searchMinimalPayload
      ∧ jsonField searchMinimalPayload "extra" = some (.str "bonus")
      ∧ parseContentsResponse contentsMinimalPayload = .ok contentsMinimalPayload
      ∧ (jsonElems contentsMinimalPayload).map (fun e => jsonField e "extra")
          = [some (.str "bonus")] :=
  c8_passthrough_roundtrip "extra" "extra" "https://a.com" (.str "bonus") (.str "bonus")
    (by decide) (by decide) (by decide) (by decide) (by decide) (by decide) rfl

lemma contentsOptionsIssues_nil_timeout {raw : ContentsOptions}
    (h : contentsOptionsIssues raw = []) :
    numberRangeIssues "crawl_timeout" 1 60 raw.crawl_timeout = [] := by
  unfold contentsOptionsIssues at h
  simp only [List.append_eq_nil] at h
  exact h.2

/-- C9: for every validated `ContentsOptions` record and non-empty URL list,
the built body always carries the URL list; it carries `formats` exactly when
the caller supplied a non-empty set (then unchanged); and it carries
`crawl_timeout` exactly as supplied — presence decides inclusion, since the
validator excludes 0 from the 1–60 range, making the truthiness gate
equivalent to a presence gate. -/
theorem c9_contents_body_fields (raw options : ContentsOptions) (urls : List String)
    (hv : validateContentsOptions raw = .ok options) (hu : urls ≠ []) :
    (buildContentsBody options urls).urls = urls
      ∧ ((buildContentsBody options urls).formats ≠ none
          ↔ options.formats ≠ none ∧ options.formats ≠ some [])
      ∧ ((buildContentsBody options urls).formats ≠ none
          → (buildContentsBody options urls).formats = options.formats)
      ∧ (buildContentsBody options urls).crawl_timeout = options.crawl_timeout := by
  obtain ⟨rfl, hnil⟩ := validateContentsOptions_ok hv
  have ht := contentsOptionsIssues_nil_timeout hnil
  refine ⟨rfl, ?_, ?_, ?_⟩
  · cases hf : options.formats with
    | none => simp [buildContentsBody, hf]
    | some fs =>
      cases fs with
      | nil => simp [buildContentsBody, hf]
      | cons a l => simp [buildContentsBody, hf]
  · cases hf : options.formats with
    | none => intro h; simp [buildContentsBody, hf] at h
    | some fs =>
      cases fs with
      | nil => intro h; simp [buildContentsBody, hf] at h
      | cons a l => intro _; simp [buildContentsBody, hf]
  · cases hc : options.crawl_timeout with
    | none => simp [buildContentsBody, hc]
    | some t =>
      have hr := numberRangeIssues_nil (hc ▸ ht)
      have hne : t ≠ 0 := by omega
      simp [buildContentsBody, hc, hne]

/-- A validated options record for the C9 witness. -/
def c9WitnessOptions : ContentsOptions :=
  { formats := some ["markdown"], crawl_timeout := some 30 }

/-- Witness for C9 at a concrete validated record and one-URL list. -/
theorem c9_contents_body_fields_witness :
    (buildContentsBody c9WitnessOptions ["https://a.com"]).urls = ["https://a.com"]
      ∧ ((buildContentsBody c9WitnessOptions ["https://a.com"]).formats ≠ none
          ↔ c9WitnessOptions.formats ≠ none ∧ c9WitnessOptions.formats ≠ some [])
      ∧ ((buildContentsBody c9WitnessOptions ["https://a.com"]).formats ≠ none
          → (buildContentsBody c9WitnessOptions ["https://a.com"]).formats
              = c9WitnessOptions.formats)
      ∧ (buildContentsBody c9WitnessOptions ["https://a.com"]).crawl_timeout
          = c9WitnessOptions.crawl_timeout :=
  c9_contents_body_fields c9WitnessOptions c9WitnessOptions ["https://a.com"]
    rfl (by decide)
